import Mathlib

/-!
Verification of the order-block scanner core (orderblock_sccaner.py).

The reviewable core consists of three functions:
* the bar aggregator (`fetch_stock_data`'s resample-aggregate-dropna step),
* `detect_bullish_order_block`,
* `check_zone_interaction`.

Prices are modelled as rationals (`ℚ`); timestamps as naturals (hours since
an epoch).  A pandas DataFrame of OHLC rows is modelled as a `List Bar` in
ascending timestamp order.  The module-level configuration constants
`MIN_BULLISH_MOVE` and `LOOKBACK_CANDLES` of the source are passed as
explicit parameters `m` / `lookback` so that properties quantifying over
configurations can be stated; the source's fixed values are recovered by
instantiating the parameters with the constants below.
-/

/-- One OHLC bar: a row of the DataFrame with columns
Open, High, Low, Close, Volume, indexed by a timestamp. -/
structure Bar where
  op : ℚ
  hi : ℚ
  lo : ℚ
  cl : ℚ
  vol : ℚ
  ts : ℕ
deriving DecidableEq, Repr

/-- Default bar used only for out-of-range indexing; the detector never
reads it on indices it actually visits. -/
def dBar : Bar := ⟨0, 0, 0, 0, 0, 0⟩

/-- Source constant `MIN_BULLISH_MOVE = 0.02`. -/
def MIN_BULLISH_MOVE : ℚ := 2 / 100

/-- Source constant `LOOKBACK_CANDLES = 50`. -/
def LOOKBACK_CANDLES : ℕ := 50

/-- Source constant `ZONE_TOUCH_TOLERANCE = 0.001`. -/
def ZONE_TOUCH_TOLERANCE : ℚ := 1 / 1000

/-- The dict built by `detect_bullish_order_block`:
`{'zone_high', 'zone_low', 'timestamp', 'strength'}`. -/
structure OrderBlock where
  zone_high : ℚ
  zone_low : ℚ
  timestamp : ℕ
  strength : ℚ
deriving DecidableEq, Repr

/-! ## Bar aggregator

Embeds `df.resample('4H').agg({'Open':'first','High':'max','Low':'min',
'Close':'last','Volume':'sum'}).dropna()`: bars are grouped into fixed-width
time buckets (bucket of a bar = `ts / w`, the resampler's floor-to-bucket
rule), each non-empty bucket becomes one output bar with open = first open,
high = max high, low = min low, close = last close, volume = sum, stamped at
the bucket start; empty buckets produce no row (`dropna`).  Since the input
is ascending, bars of a bucket are contiguous, so a single pass suffices. -/

/-- Merge the next bar of the same bucket into the bucket's running bar. -/
def mergeBar (acc b : Bar) : Bar :=
  { op := acc.op, hi := max acc.hi b.hi, lo := min acc.lo b.lo,
    cl := b.cl, vol := acc.vol + b.vol, ts := acc.ts }

/-- Start a fresh bucket from its first bar, stamped at the bucket start. -/
def initBucket (w : ℕ) (b : Bar) : Bar := { b with ts := b.ts / w * w }

/-- Sweep the remaining bars, emitting the running bucket when the bucket
index changes. -/
def aggregateGo (w : ℕ) (acc : Bar) : List Bar → List Bar
  | [] => [acc]
  | b :: bs =>
      if b.ts / w = acc.ts / w then aggregateGo w (mergeBar acc b) bs
      else acc :: aggregateGo w (initBucket w b) bs

/-- The aggregator: resample an ascending series into buckets of width `w`. -/
def aggregate (w : ℕ) : List Bar → List Bar
  | [] => []
  | b :: bs => aggregateGo w (initBucket w b) bs

/-! ## Order-block detector -/

/-- `df.tail(lookback)`: the last `lookback` bars (all of them if shorter). -/
def windowOf (df : List Bar) (lookback : ℕ) : List Bar :=
  df.drop (df.length - lookback)

/-- Column `move_percent = (High.shift(-1) - Low) / Low` at row `i` of the
window: bullish follow-through of the next bar relative to this bar's low. -/
def movePercent (w : List Bar) (i : ℕ) : ℚ :=
  ((w.getD (i + 1) dBar).hi - (w.getD i dBar).lo) / (w.getD i dBar).lo

/-- The slice `recent_df.iloc[i+1:i+4]`: up to three bars after bar `i`. -/
def subsequentSlice (w : List Bar) (i : ℕ) : List Bar :=
  (w.drop (i + 1)).take 3

/-- Maximum of the High column of a slice (`['High'].max()`). -/
def maxHigh : List Bar → ℚ
  | [] => 0
  | b :: bs => bs.foldl (fun a x => max a x.hi) b.hi

/-- `subsequent_high = recent_df.iloc[i+1:i+4]['High'].max()`. -/
def subsequentHigh (w : List Bar) (i : ℕ) : ℚ :=
  maxHigh (subsequentSlice w i)

/-- The dict appended for a confirmed candidate at index `i`:
zone from the bearish bar's High/Low, its timestamp, strength =
its `move_percent`. -/
def candBlock (w : List Bar) (i : ℕ) : OrderBlock :=
  { zone_high := (w.getD i dBar).hi, zone_low := (w.getD i dBar).lo,
    timestamp := (w.getD i dBar).ts, strength := movePercent w i }

/-- One iteration of the candidate loop: stage 1 is
`current.is_bearish ∧ next.is_bullish ∧ move_percent ≥ MIN_BULLISH_MOVE`;
stage 2 recomputes the move against the three-bar `subsequent_high`. -/
def detectStep (m : ℚ) (w : List Bar) (i : ℕ) : Option OrderBlock :=
  if (w.getD i dBar).cl < (w.getD i dBar).op ∧
      (w.getD (i + 1) dBar).cl > (w.getD (i + 1) dBar).op ∧
      movePercent w i ≥ m then
    if (subsequentHigh w i - (w.getD i dBar).lo) / (w.getD i dBar).lo ≥ m then
      some (candBlock w i)
    else none
  else none

/-- `detect_bullish_order_block(df)`: reject series of fewer than 5 bars,
restrict to the lookback window, collect the confirmed candidates for
`i in range(len(window) - 3)` and return the last one (`order_blocks[-1]`),
or `None` when the list is empty. -/
def detect_bullish_order_block (df : List Bar) (m : ℚ) (lookback : ℕ) :
    Option OrderBlock :=
  if df.length < 5 then none
  else
    ((List.range ((windowOf df lookback).length - 3)).filterMap
      (detectStep m (windowOf df lookback))).getLast?

/-- The source entry point with its global configuration inlined. -/
def detectWithDefaults (df : List Bar) : Option OrderBlock :=
  detect_bullish_order_block df MIN_BULLISH_MOVE LOOKBACK_CANDLES

/-- Candidate `i` of window `w` passes both confirmation stages. -/
def Confirms (m : ℚ) (w : List Bar) (i : ℕ) : Prop :=
  ((w.getD i dBar).cl < (w.getD i dBar).op ∧
    (w.getD (i + 1) dBar).cl > (w.getD (i + 1) dBar).op ∧
    movePercent w i ≥ m) ∧
  (subsequentHigh w i - (w.getD i dBar).lo) / (w.getD i dBar).lo ≥ m

instance (m : ℚ) (w : List Bar) (i : ℕ) : Decidable (Confirms m w i) := by
  unfold Confirms; infer_instance

/-! ## Zone interaction classifier -/

/-- The four mutually exclusive interaction states. -/
inductive InteractionStatus where
  | insideZone
  | touchingZone
  | aboveZone
  | belowZone
deriving DecidableEq, Repr

/-- The classifier core, with the absolute price tolerance ε as an explicit
argument (the spec interface `classify_interaction`): the body of
`check_zone_interaction` after `tolerance` is computed. -/
def classify_interaction (price low high zone_high zone_low tolerance : ℚ) :
    InteractionStatus :=
  if zone_low ≤ price ∧ price ≤ zone_high then .insideZone
  else if (low - tolerance ≤ zone_high ∧ zone_high ≤ high + tolerance) ∨
      (low - tolerance ≤ zone_low ∧ zone_low ≤ high + tolerance) then
    .touchingZone
  else if low > zone_high then .aboveZone
  else .belowZone

/-- `check_zone_interaction` as in the source: the tolerance is
`zone_high * ZONE_TOUCH_TOLERANCE`. -/
def check_zone_interaction (price low high zone_high zone_low : ℚ) :
    InteractionStatus :=
  classify_interaction price low high zone_high zone_low
    (zone_high * ZONE_TOUCH_TOLERANCE)

/-! ## Concrete series used as witnesses and counterexamples -/

/-- Bearish bar of the spec scenario: O=100, H=102, L=98, C=97, at t0. -/
def barT0 : Bar := ⟨100, 102, 98, 97, 0, 0⟩

/-- Bullish bar of the spec scenario: O=97, H=110, L=96, C=108, at t1. -/
def barT1 : Bar := ⟨97, 110, 96, 108, 0, 1⟩

/-- Third scenario bar, H=111 at t2. -/
def barT2 : Bar := ⟨108, 111, 107, 110, 0, 2⟩

/-- Fourth scenario bar, H=109 at t3. -/
def barT3 : Bar := ⟨105, 109, 104, 108, 0, 3⟩

/-- An additional trailing bar with no qualifying pattern of its own. -/
def barT4 : Bar := ⟨108, 110, 107, 109, 0, 4⟩

/-- The spec scenario window, exactly four bars. -/
def fourBarWindow : List Bar := [barT0, barT1, barT2, barT3]

/-- The scenario bars followed by one extra bar, so the series has 5 bars. -/
def fiveBarSeries : List Bar := [barT0, barT1, barT2, barT3, barT4]

/-- A five-bar series whose 4-bar lookback window is the scenario window:
one neutral leading bar, then the four scenario bars. -/
def dfC3 : List Bar := [⟨100, 101, 99, 100, 0, 0⟩, barT0, barT1, barT2, barT3]

/-- Series with two confirmed candidates, at window indices 0 and 2. -/
def dfTwo : List Bar :=
  [⟨100, 105, 80, 90, 0, 0⟩, ⟨90, 110, 85, 100, 0, 1⟩, ⟨100, 103, 90, 95, 0, 2⟩,
    ⟨95, 115, 94, 105, 0, 3⟩, ⟨105, 112, 100, 104, 0, 4⟩, ⟨104, 108, 101, 106, 0, 5⟩]

/-- A single bar, for the aggregator counterexample (span 0 < bucket width). -/
def barC6 : Bar := ⟨100, 102, 99, 101, 7, 1⟩

/-- Two bars one hour apart (span 1 < bucket width 4). -/
def barC6b : Bar := ⟨101, 103, 100, 102, 6, 2⟩

/-! ## Helper lemmas -/

/-- The loop body is `some (candBlock w i)` exactly on the doubly
confirmed candidates. -/
lemma detectStep_eq_ite (m : ℚ) (w : List Bar) (i : ℕ) :
    detectStep m w i = if Confirms m w i then some (candBlock w i) else none := by
  unfold detectStep Confirms
  split_ifs <;> first | rfl | tauto

/-- A member produced by `getLast?` is a member of the list. -/
lemma mem_of_getLast?_eq_some {α : Type} {l : List α} {a : α}
    (h : l.getLast? = some a) : a ∈ l := by
  induction l with
  | nil => simp at h
  | cons x xs ih =>
    cases xs with
    | nil => simp at h; simp [h]
    | cons y ys =>
      rw [List.getLast?_cons_cons] at h
      exact List.mem_cons_of_mem _ (ih h)

/-- If `f j = some b` and `f` vanishes on the tail of `range n` after `j`,
the last hit of `filterMap f` over `range n` is `b`. -/
lemma getLast?_filterMap_range_eq {α : Type} (f : ℕ → Option α) (n j : ℕ) (b : α)
    (hj : j < n) (hfj : f j = some b)
    (hafter : ∀ k, j < k → k < n → f k = none) :
    ((List.range n).filterMap f).getLast? = some b := by
  induction n with
  | zero => omega
  | succ n ih =>
    rw [List.range_succ, List.filterMap_append]
    rcases Nat.lt_succ_iff_lt_or_eq.mp hj with h | h
    · have hfn : f n = none := hafter n h (Nat.lt_succ_self n)
      have hnil : List.filterMap f [n] = [] := by simp [hfn]
      rw [hnil, List.append_nil]
      exact ih h fun k hk1 hk2 => hafter k hk1 (Nat.lt_succ_of_lt hk2)
    · subst h
      have hone : List.filterMap f [j] = [b] := by simp [hfj]
      rw [hone, List.getLast?_concat]

/-- One step of an overwrite-on-confirm pass: replace the tracked value
whenever `f` produces one, keep it otherwise. -/
def overwriteStep {α β : Type} (f : α → Option β) (acc : Option β) (x : α) :
    Option β :=
  match f x with
  | some b => some b
  | none => acc

/-- A left fold that overwrites its accumulator on every `some` computes the
last hit of `filterMap`, seeded with `init`. -/
lemma foldl_overwrite {α β : Type} (f : α → Option β) (l : List α) :
    ∀ init : Option β,
      l.foldl (overwriteStep f) init = ((l.filterMap f).getLast?).or init := by
  induction l with
  | nil => intro init; rfl
  | cons x xs ih =>
    intro init
    rw [List.foldl_cons, ih]
    unfold overwriteStep
    cases hfx : f x with
    | none => simp [List.filterMap_cons, hfx]
    | some b =>
      simp only [List.filterMap_cons, hfx]
      cases hl : xs.filterMap f with
      | nil => simp [hl]
      | cons c t =>
        rw [List.getLast?_cons_cons,
          List.getLast?_eq_getLast_of_ne_nil (List.cons_ne_nil c t)]
        rfl

/-- `aggregateGo` always emits at least the running bucket. -/
lemma aggregateGo_ne_nil (w : ℕ) (l : List Bar) :
    ∀ acc : Bar, aggregateGo w acc l ≠ [] := by
  induction l with
  | nil => intro acc; simp [aggregateGo]
  | cons b bs ih =>
    intro acc
    unfold aggregateGo
    split_ifs
    · exact ih _
    · exact List.cons_ne_nil _ _

/-- The single-pass overwrite-on-confirm detector described by the design
notes: one forward pass over the candidate indices, replacing the tracked
candidate whenever one confirms, no list accumulation.  Modelled from the
spec's words for comparison against `detect_bullish_order_block`. -/
def detectOverwriteOnConfirm (df : List Bar) (m : ℚ) (lookback : ℕ) :
    Option OrderBlock :=
  if df.length < 5 then none
  else
    (List.range ((windowOf df lookback).length - 3)).foldl
      (overwriteStep (detectStep m (windowOf df lookback))) none

/-! ## Claim theorems -/

/-- Claim C1: whenever two candidates pass both confirmation stages at
window indices `i < j` and `j` is the last confirmed index, the detector
returns the candidate at `j`: zone_high = its high, zone_low = its low,
timestamp = its timestamp, strength = its move_percent. -/
theorem detect_returns_last_confirmed (df : List Bar) (m : ℚ) (lb : ℕ)
    (i j : ℕ) (hij : i < j) (hj : j < (windowOf df lb).length - 3)
    (hci : Confirms m (windowOf df lb) i)
    (hcj : Confirms m (windowOf df lb) j)
    (hlast : ∀ k, k < (windowOf df lb).length - 3 →
      Confirms m (windowOf df lb) k → k ≤ j) :
    detect_bullish_order_block df m lb =
      some { zone_high := ((windowOf df lb).getD j dBar).hi,
             zone_low := ((windowOf df lb).getD j dBar).lo,
             timestamp := ((windowOf df lb).getD j dBar).ts,
             strength := movePercent (windowOf df lb) j } := by
  have hwlen : (windowOf df lb).length ≤ df.length := by
    unfold windowOf; rw [List.length_drop]; omega
  have h5 : ¬ df.length < 5 := by omega
  unfold detect_bullish_order_block
  rw [if_neg h5]
  exact getLast?_filterMap_range_eq (detectStep m (windowOf df lb)) _ j
    (candBlock (windowOf df lb) j) hj
    (by rw [detectStep_eq_ite, if_pos hcj])
    (fun k hk1 hk2 => by
      rw [detectStep_eq_ite]
      exact if_neg fun hc => absurd (hlast k hk2 hc) (by omega))

/-- Claim C1 witness: on `dfTwo`, candidates 0 and 2 confirm and the
detector returns candidate 2. -/
theorem detect_returns_last_confirmed_witness :
    detect_bullish_order_block dfTwo (2/100) 50 =
      some { zone_high := ((windowOf dfTwo 50).getD 2 dBar).hi,
             zone_low := ((windowOf dfTwo 50).getD 2 dBar).lo,
             timestamp := ((windowOf dfTwo 50).getD 2 dBar).ts,
             strength := movePercent (windowOf dfTwo 50) 2 } :=
  detect_returns_last_confirmed dfTwo (2/100) 50 0 2 (by norm_num)
    (by norm_num [windowOf, dfTwo])
    (by norm_num [Confirms, windowOf, dfTwo, movePercent, subsequentHigh,
      subsequentSlice, maxHigh, dBar])
    (by norm_num [Confirms, windowOf, dfTwo, movePercent, subsequentHigh,
      subsequentSlice, maxHigh, dBar])
    (fun k hk _ => by
      have hlen : (windowOf dfTwo 50).length = 6 := by norm_num [windowOf, dfTwo]
      omega)

/-- Claim C2: on every input with low ≤ high, zone_low ≤ zone_high and
tolerance ≥ 0, the classifier is total and yields exactly one status; the
codomain `InteractionStatus` is exactly the four states InsideZone,
TouchingZone, AboveZone, BelowZone. -/
theorem classify_total_exclusive (price low high zone_high zone_low tolerance : ℚ)
    (hlh : low ≤ high) (hz : zone_low ≤ zone_high) (ht : 0 ≤ tolerance) :
    ∃! s : InteractionStatus,
      classify_interaction price low high zone_high zone_low tolerance = s ∧
        (s = .insideZone ∨ s = .touchingZone ∨ s = .aboveZone ∨ s = .belowZone) :=
  ⟨classify_interaction price low high zone_high zone_low tolerance,
    ⟨rfl, by cases classify_interaction price low high zone_high zone_low tolerance
      <;> simp⟩,
    fun y hy => hy.1.symm⟩

/-- Claim C2 witness at a concrete valid input. -/
theorem classify_total_exclusive_witness :
    ∃! s : InteractionStatus,
      classify_interaction 1 1 2 3 0 1 = s ∧
        (s = .insideZone ∨ s = .touchingZone ∨ s = .aboveZone ∨ s = .belowZone) :=
  classify_total_exclusive 1 1 2 3 0 1 (by norm_num) (by norm_num) (by norm_num)

/-- Claim C3, amended: the guard in the code is on the length of the whole
series (`len(df) < 5`), not of the window; when the configured lookback is
at least 5 (as the shipped `LOOKBACK_CANDLES = 50` is) the two agree, and a
window of fewer than 5 bars makes the detector return `none`. -/
theorem detect_none_of_small_window (df : List Bar) (m : ℚ) (lb : ℕ)
    (hlb : 5 ≤ lb) (hw : (windowOf df lb).length < 5) :
    detect_bullish_order_block df m lb = none := by
  have h5 : df.length < 5 := by
    unfold windowOf at hw
    rw [List.length_drop] at hw
    omega
  unfold detect_bullish_order_block
  rw [if_pos h5]

/-- Claim C3 witness: a three-bar series under the default lookback. -/
theorem detect_none_of_small_window_witness :
    detect_bullish_order_block [barT0, barT1, barT2] (2/100) 50 = none :=
  detect_none_of_small_window [barT0, barT1, barT2] (2/100) 50 (by norm_num)
    (by norm_num [windowOf])

/-- Claim C3 counterexample: with `lookback_candles = 4` the analysis
window of `dfC3` has 4 bars (fewer than 5), yet the detector returns a
block, because the code's guard tests the series length (5), not the
window length. -/
theorem detect_small_window_counterexample :
    (windowOf dfC3 4).length < 5 ∧
      detect_bullish_order_block dfC3 (2/100) 4 ≠ none := by
  constructor
  · norm_num [windowOf, dfC3]
  · have hsome : detect_bullish_order_block dfC3 (2/100) 4 =
        some ⟨102, 98, 0, 6/49⟩ := by
      norm_num [detect_bullish_order_block, dfC3, windowOf, detectStep,
        candBlock, movePercent, subsequentHigh, subsequentSlice, maxHigh,
        dBar, barT0, barT1, barT2, barT3, List.range_succ]
    rw [hsome]
    simp

/-- Claim C4: whenever zone_low ≤ close ≤ zone_high (in particular when the
close equals either boundary), the classifier returns InsideZone, regardless
of low, high and tolerance: the zone is a closed interval and the InsideZone
test has top precedence. -/
theorem classify_inside_of_close_in_zone
    (price low high zone_high zone_low tolerance : ℚ)
    (hz : zone_low ≤ zone_high)
    (h1 : zone_low ≤ price) (h2 : price ≤ zone_high) :
    classify_interaction price low high zone_high zone_low tolerance =
      .insideZone := by
  unfold classify_interaction
  rw [if_pos ⟨h1, h2⟩]

/-- Claim C4 witness: close exactly at zone_high, with low/high/tolerance
arbitrary concrete values away from the zone. -/
theorem classify_inside_of_close_in_zone_witness :
    classify_interaction 2 5 6 2 1 7 = .insideZone :=
  classify_inside_of_close_in_zone 2 5 6 2 1 7 (by norm_num) (by norm_num)
    (by norm_num)

/-- Claim C5: with tolerance 0, the bar's high exactly at zone_low and the
close strictly outside the closed zone, the classifier returns TouchingZone
(for any bar satisfying low ≤ high), not AboveZone or BelowZone. -/
theorem classify_touching_at_exact_boundary
    (price low high zone_high zone_low : ℚ)
    (hlh : low ≤ high) (hhz : high = zone_low)
    (hout : price < zone_low ∨ zone_high < price) :
    classify_interaction price low high zone_high zone_low 0 =
      .touchingZone := by
  have hnotin : ¬ (zone_low ≤ price ∧ price ≤ zone_high) := by
    rintro ⟨ha, hb⟩
    rcases hout with h | h <;> linarith
  have htouch : (low - 0 ≤ zone_high ∧ zone_high ≤ high + 0) ∨
      (low - 0 ≤ zone_low ∧ zone_low ≤ high + 0) :=
    Or.inr ⟨by linarith, by linarith⟩
  unfold classify_interaction
  rw [if_neg hnotin, if_pos htouch]

/-- Claim C5 witness: high = zone_low = 2, close 10 above the zone. -/
theorem classify_touching_at_exact_boundary_witness :
    classify_interaction 10 1 2 5 2 0 = .touchingZone :=
  classify_touching_at_exact_boundary 10 1 2 5 2 (by norm_num) (by norm_num)
    (Or.inr (by norm_num))

/-- Claim C6, amended: a non-empty input series — in particular one whose
span is shorter than one bucket width — aggregates to a NON-empty output
Series (the partial bucket is emitted), and no error is raised; only the
empty input yields an empty output. -/
theorem aggregate_nonempty (w : ℕ) (s : List Bar) (hs : s ≠ []) :
    aggregate w s ≠ [] := by
  cases s with
  | nil => exact absurd rfl hs
  | cons b bs =>
    unfold aggregate
    exact aggregateGo_ne_nil w bs _

/-- Claim C6 witness: two bars one hour apart, bucket width 4. -/
theorem aggregate_nonempty_witness :
    aggregate 4 [barC6, barC6b] ≠ [] :=
  aggregate_nonempty 4 [barC6, barC6b] (by simp)

/-- Claim C6 counterexample: a single-bar series (time span 0, shorter than
the bucket width 4) produces a one-bucket output, not an empty Series: the
resampler emits the partial bucket. -/
theorem aggregate_partial_bucket_counterexample :
    ¬ aggregate 4 [barC6] = [] := by
  simp [aggregate, aggregateGo]

/-- Claim C7 counterexample: on the bare four-bar scenario window the
detector returns `none`, not the scenario's OrderBlock, because the series
has fewer than 5 bars and the initial guard rejects it. -/
theorem detect_four_bar_scenario_counterexample :
    detect_bullish_order_block fourBarWindow (2/100) 50 = none := by
  norm_num [detect_bullish_order_block, fourBarWindow]

/-- Claim C7, amended: once the scenario window is extended to at least 5
bars (here by one trailing non-qualifying bar), the detector confirms the
candidate at t0 and returns zone_low = 98, zone_high = 102, timestamp = t0
and strength = 6/49 = (110 − 98)/98 ≈ 0.1224. -/
theorem detect_scenario_five_bars :
    detect_bullish_order_block fiveBarSeries (2/100) 50 =
      some ⟨102, 98, 0, 6/49⟩ := by
  norm_num [detect_bullish_order_block, fiveBarSeries, windowOf, detectStep,
    candBlock, movePercent, subsequentHigh, subsequentSlice, maxHigh, dBar,
    barT0, barT1, barT2, barT3, barT4, List.range_succ]

/-- Claim C8: under the Bar invariant low ≤ high, every OrderBlock the
detector returns has zone_low ≤ zone_high, strength ≥ the configured
minimum move, and its timestamp, zone_high and zone_low are those of the
originating bearish window bar. -/
theorem detect_block_invariants (df : List Bar) (m : ℚ) (lb : ℕ)
    (ob : OrderBlock) (hinv : ∀ b ∈ df, b.lo ≤ b.hi)
    (hdet : detect_bullish_order_block df m lb = some ob) :
    ob.zone_low ≤ ob.zone_high ∧ ob.strength ≥ m ∧
    ∃ i, i < (windowOf df lb).length - 3 ∧
      ((windowOf df lb).getD i dBar).cl < ((windowOf df lb).getD i dBar).op ∧
      ob.timestamp = ((windowOf df lb).getD i dBar).ts ∧
      ob.zone_high = ((windowOf df lb).getD i dBar).hi ∧
      ob.zone_low = ((windowOf df lb).getD i dBar).lo := by
  unfold detect_bullish_order_block at hdet
  by_cases h5 : df.length < 5
  · rw [if_pos h5] at hdet
    exact absurd hdet (by simp)
  · rw [if_neg h5] at hdet
    have hmem := mem_of_getLast?_eq_some hdet
    rw [List.mem_filterMap] at hmem
    obtain ⟨i, hir, hstep⟩ := hmem
    rw [List.mem_range] at hir
    rw [detectStep_eq_ite] at hstep
    by_cases hc : Confirms m (windowOf df lb) i
    · rw [if_pos hc] at hstep
      obtain rfl : ob = candBlock (windowOf df lb) i :=
        (Option.some.inj hstep).symm
      have hiw : i < (windowOf df lb).length := by omega
      have hmemw : (windowOf df lb).getD i dBar ∈ windowOf df lb := by
        rw [List.getD_eq_getElem (windowOf df lb) dBar hiw]
        exact List.getElem_mem hiw
      have hmemdf : (windowOf df lb).getD i dBar ∈ df := by
        unfold windowOf at hmemw
        exact List.mem_of_mem_drop hmemw
      have hlohi := hinv _ hmemdf
      exact ⟨hlohi, hc.1.2.2, i, hir, hc.1.1, rfl, rfl, rfl⟩
    · rw [if_neg hc] at hstep
      exact absurd hstep (by simp)

/-- Claim C8 witness: the five-bar scenario series under the shipped
configuration. -/
theorem detect_block_invariants_witness :
    (⟨102, 98, 0, 6/49⟩ : OrderBlock).zone_low ≤
        (⟨102, 98, 0, 6/49⟩ : OrderBlock).zone_high ∧
      (⟨102, 98, 0, 6/49⟩ : OrderBlock).strength ≥ 2/100 ∧
      ∃ i, i < (windowOf fiveBarSeries 50).length - 3 ∧
        ((windowOf fiveBarSeries 50).getD i dBar).cl <
          ((windowOf fiveBarSeries 50).getD i dBar).op ∧
        (⟨102, 98, 0, 6/49⟩ : OrderBlock).timestamp =
          ((windowOf fiveBarSeries 50).getD i dBar).ts ∧
        (⟨102, 98, 0, 6/49⟩ : OrderBlock).zone_high =
          ((windowOf fiveBarSeries 50).getD i dBar).hi ∧
        (⟨102, 98, 0, 6/49⟩ : OrderBlock).zone_low =
          ((windowOf fiveBarSeries 50).getD i dBar).lo :=
  detect_block_invariants fiveBarSeries (2/100) 50 ⟨102, 98, 0, 6/49⟩
    (by norm_num [fiveBarSeries, barT0, barT1, barT2, barT3, barT4])
    (by norm_num [detect_bullish_order_block, fiveBarSeries, windowOf,
      detectStep, candBlock, movePercent, subsequentHigh, subsequentSlice,
      maxHigh, dBar, barT0, barT1, barT2, barT3, barT4, List.range_succ])

/-- Claim C9: the source's collect-all-then-take-last detector is
extensionally equal to the spec's single forward pass that overwrites the
tracked candidate on each confirmation, for every series and configuration. -/
theorem detect_overwrite_equiv (df : List Bar) (m : ℚ) (lb : ℕ) :
    detectOverwriteOnConfirm df m lb = detect_bullish_order_block df m lb := by
  unfold detectOverwriteOnConfirm detect_bullish_order_block
  by_cases h5 : df.length < 5
  · rw [if_pos h5, if_pos h5]
  · rw [if_neg h5, if_neg h5]
    exact (foldl_overwrite (detectStep m (windowOf df lb))
      (List.range ((windowOf df lb).length - 3)) none).trans Option.or_none

/-- Claim C10: for every candidate index the detector evaluates (an element
of `range (window.length − 3)`), the subsequent-high slice
`iloc[i+1:i+4]` holds exactly 3 bars — it is never clipped at the series
end, since i + 4 ≤ window length: the code requires exactly 3
follow-through bars. -/
theorem subsequent_window_exact (df : List Bar) (lb : ℕ) (i : ℕ)
    (hi : i ∈ List.range ((windowOf df lb).length - 3)) :
    (subsequentSlice (windowOf df lb) i).length = 3 ∧
      i + 4 ≤ (windowOf df lb).length := by
  rw [List.mem_range] at hi
  unfold subsequentSlice
  rw [List.length_take, List.length_drop]
  omega

/-- Claim C10 witness: index 0 of the five-bar scenario series' window. -/
theorem subsequent_window_exact_witness :
    (subsequentSlice (windowOf fiveBarSeries 50) 0).length = 3 ∧
      0 + 4 ≤ (windowOf fiveBarSeries 50).length :=
  subsequent_window_exact fiveBarSeries 50 0
    (by simp [windowOf, fiveBarSeries])
